import Mathlib

/-!
Shallow embedding of the Telegram-Notes-Bot persistent store and its
operations (src/database.py, src/admin.py), together with theorems that
settle the spec claims.

Modelling conventions:
* SQLite tables keyed by `user_id` become association lists
  `List (Int × row)` with first-match lookup; a `PRIMARY KEY` means the
  code only ever writes through `setRow`, which replaces the first
  matching row or appends.
* SQLite `INSERT OR REPLACE` that names only some columns replaces the
  whole row, so unspecified columns take their declared defaults (NULL);
  the embedding reproduces this by writing a fresh row with `none` in the
  unmentioned fields (see `Database.update_cooldown`).
* Wall-clock time (`datetime.now`) is an explicit `now : ℚ` parameter in
  seconds; Python's float subtraction becomes exact rational arithmetic.
* Python strings are `List Char`; `str.strip()` is `pyStrip`.
* The user-visible Russian message strings of database.py/admin.py are
  represented by the inductive `Msg`, one constructor per distinct format
  string of the source, carrying the interpolated data.
* `ADMIN_ID` (config.py, read from the environment) is a parameter
  `admin_id : Int` threaded to the functions that import it.
-/

namespace TgNotes

/-- Python `str.strip()`: drop whitespace from both ends. -/
def pyStrip (s : List Char) : List Char :=
  ((s.dropWhile Char.isWhitespace).reverse.dropWhile Char.isWhitespace).reverse

/-- First-match lookup in an association list (SQLite `SELECT ... WHERE user_id = ?`
on a PRIMARY KEY column). -/
def lookupRow {β : Type} (m : List (Int × β)) (k : Int) : Option β :=
  match m with
  | [] => none
  | (k', v) :: rest => if k' = k then some v else lookupRow rest k

/-- Replace the first row with key `k` by `(k, v)`, or append it
(SQLite `INSERT OR REPLACE` on a PRIMARY KEY table). -/
def setRow {β : Type} (m : List (Int × β)) (k : Int) (v : β) : List (Int × β) :=
  match m with
  | [] => [(k, v)]
  | (k', v') :: rest => if k' = k then (k, v) :: rest else (k', v') :: setRow rest k v

/-- Delete every row with key `k` (SQLite `DELETE ... WHERE user_id = ?`). -/
def delRow {β : Type} (m : List (Int × β)) (k : Int) : List (Int × β) :=
  m.filter (fun r => ¬ r.1 = k)

/-- A row of the `notes` table. -/
structure NoteRow where
  id : Int
  user_id : Int
  note_text : List Char
  created_at : ℚ
  deriving Repr, DecidableEq

/-- A row of the `user_cooldowns` table; each column is NULLable. -/
structure CooldownRow where
  last_add_time : Option ℚ
  last_delete_time : Option ℚ
  last_update_time : Option ℚ
  deriving Repr, DecidableEq

/-- A row of the `user_roles` table (the `granted_at` timestamp column is
presentational and not modelled). -/
structure RoleRow where
  role : String
  granted_by : Option Int
  deriving Repr, DecidableEq

/-- A row of the `referrals` table (`joined_at` not modelled; list order is
insertion order). -/
structure ReferralRow where
  referrer_id : Int
  referred_id : Int
  referrer_username : Option String
  deriving Repr, DecidableEq

/-- A row of the `referral_stats` table (`last_updated` not modelled). -/
structure StatsRow where
  total_referrals : Nat
  active_referrals : Nat
  deriving Repr, DecidableEq

/-- The persistent store: the tables of `Database.init_database` that the
claims touch.  `next_note_id` models the AUTOINCREMENT counter of `notes`
(first id is 1). -/
structure Database where
  notes : List NoteRow
  next_note_id : Int
  user_roles : List (Int × RoleRow)
  user_cooldowns : List (Int × CooldownRow)
  referrals : List ReferralRow
  referral_stats : List (Int × StatsRow)
  deriving Repr, DecidableEq

/-- The empty store produced by `init_database` on a fresh file. -/
def Database.empty : Database :=
  { notes := [], next_note_id := 1, user_roles := [], user_cooldowns := [],
    referrals := [], referral_stats := [] }

/-- The three note operations guarded by cooldowns; the source derives the
column name `last_{operation}_time` from this label. -/
inductive Operation where
  | add
  | delete
  | update
  deriving Repr, DecidableEq

/-- Read the `last_{operation}_time` column of a cooldown row. -/
def CooldownRow.col (r : CooldownRow) : Operation → Option ℚ
  | .add => r.last_add_time
  | .delete => r.last_delete_time
  | .update => r.last_update_time

/-- The distinct user-facing message strings of database.py and admin.py,
one constructor per format string, carrying the interpolated values. -/
inductive Msg where
  | invalid_user_id (user_id : Int)
  | invalid_note_text
  | invalid_note_id (note_id : Int)
  | wait_add (remaining : ℚ)
  | wait_delete (remaining : ℚ)
  | wait_update (remaining : ℚ)
  | note_added
  | note_deleted
  | note_updated
  | note_not_found_or_not_yours
  | only_main_admin_can_grant
  | only_main_admin_can_revoke
  | cannot_change_main_admin_role
  | cannot_revoke_main_admin_role
  | already_admin
  | not_an_admin
  | admin_granted (target : Int)
  | admin_revoked (target : Int)
  deriving Repr, DecidableEq

namespace Database

/-- `Database._validate_user_id`: the id must be a positive integer. -/
def validate_user_id (user_id : Int) : Bool :=
  user_id > 0

/-- `Database._validate_note_text`: at most 4000 characters (measured on the
raw text, before stripping) and non-empty after stripping. -/
def validate_note_text (note_text : List Char) : Bool :=
  if note_text.length > 4000 then false
  else if pyStrip note_text = [] then false
  else true

/-- `Database._validate_note_id`: the note id must be a positive integer. -/
def validate_note_id (note_id : Int) : Bool :=
  note_id > 0

/-- `Database._check_cooldown`: returns `(may_proceed, remaining_seconds)`.
No row or a NULL column means the first operation of that kind, which is
allowed with 0 remaining. -/
def check_cooldown (db : Database) (user_id : Int) (operation : Operation)
    (cooldown_seconds : ℚ) (now : ℚ) : Bool × ℚ :=
  match lookupRow db.user_cooldowns user_id with
  | none => (true, 0)
  | some row =>
    match row.col operation with
    | none => (true, 0)
    | some last_time =>
      let time_diff := now - last_time
      if time_diff ≥ cooldown_seconds then (true, 0)
      else (false, cooldown_seconds - time_diff)

/-- `Database._update_cooldown`: SQLite `INSERT OR REPLACE INTO
user_cooldowns (user_id, last_{op}_time) VALUES (?, ?)`.  The statement
names a single timestamp column, so the whole row is replaced and the two
unmentioned columns revert to their NULL defaults. -/
def update_cooldown (db : Database) (user_id : Int) (operation : Operation)
    (now : ℚ) : Database :=
  let fresh : CooldownRow :=
    match operation with
    | .add => { last_add_time := some now, last_delete_time := none, last_update_time := none }
    | .delete => { last_add_time := none, last_delete_time := some now, last_update_time := none }
    | .update => { last_add_time := none, last_delete_time := none, last_update_time := some now }
  { db with user_cooldowns := setRow db.user_cooldowns user_id fresh }

/-- `Database.add_note`: validate, check the add-cooldown, insert the
stripped text, then record the add timestamp. -/
def add_note (db : Database) (user_id : Int) (note_text : List Char)
    (now : ℚ) : (Bool × Msg) × Database :=
  if ¬ validate_user_id user_id then ((false, .invalid_user_id user_id), db)
  else if ¬ validate_note_text note_text then ((false, .invalid_note_text), db)
  else
    let cd := check_cooldown db user_id .add 2 now
    if ¬ cd.1 then ((false, .wait_add cd.2), db)
    else
      let db1 : Database :=
        { db with
          notes := db.notes ++ [{ id := db.next_note_id, user_id := user_id,
                                  note_text := pyStrip note_text, created_at := now }],
          next_note_id := db.next_note_id + 1 }
      ((true, .note_added), update_cooldown db1 user_id .add now)

/-- `Database.get_user_notes`: `SELECT id, note_text FROM notes WHERE
user_id = ? ORDER BY created_at DESC` (most recent first; insertion order
breaks ties, standing in for SQLite's unspecified tie order). -/
def get_user_notes (db : Database) (user_id : Int) : List (Int × List Char) :=
  if ¬ validate_user_id user_id then []
  else ((db.notes.filter (fun r => r.user_id = user_id)).map
          (fun r => (r.id, r.note_text))).reverse

/-- `Database.delete_note`: validate, check the delete-cooldown, require a
row matching both the id and the caller (`WHERE id = ? AND user_id = ?`),
delete it, then record the delete timestamp. -/
def delete_note (db : Database) (user_id : Int) (note_id : Int)
    (now : ℚ) : (Bool × Msg) × Database :=
  if ¬ validate_user_id user_id then ((false, .invalid_user_id user_id), db)
  else if ¬ validate_note_id note_id then ((false, .invalid_note_id note_id), db)
  else
    let cd := check_cooldown db user_id .delete 2 now
    if ¬ cd.1 then ((false, .wait_delete cd.2), db)
    else if ¬ db.notes.any (fun r => r.id = note_id ∧ r.user_id = user_id) then
      ((false, .note_not_found_or_not_yours), db)
    else
      let db1 : Database :=
        { db with notes := db.notes.filter (fun r => ¬ (r.id = note_id ∧ r.user_id = user_id)) }
      ((true, .note_deleted), update_cooldown db1 user_id .delete now)

/-- `Database.update_note`: validate, check the update-cooldown, require a
row matching id and caller, overwrite its text with the stripped new text,
then record the update timestamp. -/
def update_note (db : Database) (user_id : Int) (note_id : Int)
    (new_text : List Char) (now : ℚ) : (Bool × Msg) × Database :=
  if ¬ validate_user_id user_id then ((false, .invalid_user_id user_id), db)
  else if ¬ validate_note_id note_id then ((false, .invalid_note_id note_id), db)
  else if ¬ validate_note_text new_text then ((false, .invalid_note_text), db)
  else
    let cd := check_cooldown db user_id .update 2 now
    if ¬ cd.1 then ((false, .wait_update cd.2), db)
    else if ¬ db.notes.any (fun r => r.id = note_id ∧ r.user_id = user_id) then
      ((false, .note_not_found_or_not_yours), db)
    else
      let db1 : Database :=
        { db with notes := db.notes.map (fun r =>
            if r.id = note_id ∧ r.user_id = user_id then
              { r with note_text := pyStrip new_text } else r) }
      ((true, .note_updated), update_cooldown db1 user_id .update now)

/-- `Database.get_user_role`: the stored role, defaulting to `"user"` when
no row exists. -/
def get_user_role (db : Database) (user_id : Int) : String :=
  match lookupRow db.user_roles user_id with
  | some row => row.role
  | none => "user"

/-- `Database.add_user_role`: `INSERT OR REPLACE INTO user_roles`; always
reports success. -/
def add_user_role (db : Database) (user_id : Int) (role : String)
    (granted_by : Int) : Bool × Database :=
  let row : RoleRow := { role := role, granted_by := some granted_by }
  (true, { db with user_roles := setRow db.user_roles user_id row })

/-- `Database.remove_user_role`: delete the role row; always reports
success. -/
def remove_user_role (db : Database) (user_id : Int) : Bool × Database :=
  (true, { db with user_roles := delRow db.user_roles user_id })

/-- `Database.ensure_user_exists`: create a role row on first contact —
`main_admin` for the configured owner, `user` otherwise. -/
def ensure_user_exists (admin_id : Int) (db : Database) (user_id : Int) :
    Bool × Database :=
  if ¬ validate_user_id user_id then (false, db)
  else
    match lookupRow db.user_roles user_id with
    | some _ => (true, db)
    | none =>
      if user_id = admin_id then
        (true, { db with user_roles := db.user_roles ++
                  [(user_id, { role := "main_admin", granted_by := some user_id })] })
      else
        (true, { db with user_roles := db.user_roles ++
                  [(user_id, { role := "user", granted_by := none })] })

/-- `Database._update_referral_stats`: recompute the referrer's edge count
from the `referrals` table and upsert `(total, total)` — every edge counts
as active. -/
def update_referral_stats (db : Database) (user_id : Int) : Bool × Database :=
  let total_referrals := (db.referrals.filter (fun r => r.referrer_id = user_id)).length
  let row : StatsRow :=
    { total_referrals := total_referrals, active_referrals := total_referrals }
  (true, { db with referral_stats := setRow db.referral_stats user_id row })

/-- `Database.add_referral`: validate both ids, forbid self-referral,
ensure both users have role rows, then insert the edge only if the
referred user has no edge yet; on success recompute the referrer's stats. -/
def add_referral (admin_id : Int) (db : Database) (referrer_id referred_id : Int)
    (referrer_username : Option String) : Bool × Database :=
  if ¬ validate_user_id referrer_id ∨ ¬ validate_user_id referred_id then (false, db)
  else if referrer_id = referred_id then (false, db)
  else
    let db1 := (ensure_user_exists admin_id db referrer_id).2
    let db2 := (ensure_user_exists admin_id db1 referred_id).2
    if db2.referrals.any (fun r => r.referred_id = referred_id) then (false, db2)
    else
      let db3 : Database :=
        { db2 with referrals := db2.referrals ++
            [{ referrer_id := referrer_id, referred_id := referred_id,
               referrer_username := referrer_username }] }
      (true, (update_referral_stats db3 referrer_id).2)

/-- `Database.get_referral_stats`: the stored `(total, active)` pair,
defaulting to `(0, 0)` on an invalid id or a missing row. -/
def get_referral_stats (db : Database) (user_id : Int) : Nat × Nat :=
  if ¬ validate_user_id user_id then (0, 0)
  else
    match lookupRow db.referral_stats user_id with
    | some row => (row.total_referrals, row.active_referrals)
    | none => (0, 0)

end Database

namespace AdminPanel

/-- `AdminPanel.is_main_admin`: purely config-derived owner test. -/
def is_main_admin (admin_id : Int) (user_id : Int) : Bool :=
  user_id = admin_id

/-- `AdminPanel.is_admin`: the configured owner is always an admin;
otherwise the stored role must be `"admin"`. -/
def is_admin (admin_id : Int) (db : Database) (user_id : Int) : Bool :=
  if user_id = admin_id then true
  else Database.get_user_role db user_id = "admin"

/-- `AdminPanel.grant_admin_role`: only the owner may grant, never to the
owner, never to an existing admin; on success stores the `admin` role. -/
def grant_admin_role (admin_id : Int) (db : Database)
    (target_user_id granted_by : Int) : (Bool × Msg) × Database :=
  if ¬ is_main_admin admin_id granted_by then
    ((false, .only_main_admin_can_grant), db)
  else if target_user_id = admin_id then
    ((false, .cannot_change_main_admin_role), db)
  else if is_admin admin_id db target_user_id then
    ((false, .already_admin), db)
  else
    let res := Database.add_user_role db target_user_id "admin" granted_by
    ((true, .admin_granted target_user_id), res.2)

/-- `AdminPanel.revoke_admin_role`: only the owner may revoke, never from
the owner, only from a current admin; on success deletes the role row. -/
def revoke_admin_role (admin_id : Int) (db : Database)
    (target_user_id revoked_by : Int) : (Bool × Msg) × Database :=
  if ¬ is_main_admin admin_id revoked_by then
    ((false, .only_main_admin_can_revoke), db)
  else if target_user_id = admin_id then
    ((false, .cannot_revoke_main_admin_role), db)
  else if ¬ is_admin admin_id db target_user_id then
    ((false, .not_an_admin), db)
  else
    let res := Database.remove_user_role db target_user_id
    ((true, .admin_revoked target_user_id), res.2)

/-- Normalise a Python slice endpoint against a list of length `n`:
negative indices count from the end, both ends clamp into `[0, n]`. -/
def sliceIndex (n : Nat) (i : Int) : Nat :=
  if i < 0 then ((n : Int) + i).toNat else min i.toNat n

/-- Python `l[s:e]` list slicing. -/
def pySlice {α : Type} (l : List α) (s e : Int) : List α :=
  let ns := sliceIndex l.length s
  let ne := sliceIndex l.length e
  (l.drop ns).take (ne - ns)

/-- The dict returned by `AdminPanel.get_users_list_paginated`. -/
structure PageData (α : Type) where
  users : List α
  page : Int
  total_pages : Int
  total_users : Nat
  has_prev : Bool
  has_next : Bool
  deriving Repr, DecidableEq

/-- The pagination section of `AdminPanel.get_users_list_paginated`
(admin.py lines 205–224), applied to the assembled `all_users` list:
ceiling page count by floor division, clamp the requested page into
`[1, total_pages]`, then slice. -/
def paginate {α : Type} (all_users : List α) (page0 per_page : Int) :
    PageData α :=
  let total_users := all_users.length
  let total_pages := Int.fdiv ((total_users : Int) + per_page - 1) per_page
  let page1 := if page0 < 1 then 1 else page0
  let page := if page0 < 1 then page1
              else if page1 > total_pages then total_pages else page1
  let start_idx := (page - 1) * per_page
  let end_idx := start_idx + per_page
  { users := pySlice all_users start_idx end_idx
    page := page
    total_pages := total_pages
    total_users := total_users
    has_prev := decide (page > 1)
    has_next := decide (page < total_pages) }

end AdminPanel

/-! Helper lemmas about the association-list store operations. -/

@[simp]
theorem lookupRow_setRow_self {β : Type} (m : List (Int × β)) (k : Int) (v : β) :
    lookupRow (setRow m k v) k = some v := by
  induction m with
  | nil => simp [setRow, lookupRow]
  | cons hd tl ih =>
    by_cases h : hd.1 = k
    · simp [setRow, lookupRow, h]
    · simpa [setRow, lookupRow, h] using ih

theorem lookupRow_append_of_none {β : Type} (m m' : List (Int × β)) (k : Int)
    (h : lookupRow m k = none) :
    lookupRow (m ++ m') k = lookupRow m' k := by
  induction m with
  | nil => simp
  | cons hd tl ih =>
    by_cases hk : hd.1 = k
    · simp [lookupRow, hk] at h
    · simp only [lookupRow, hk, if_neg hk, List.cons_append] at h ⊢
      exact ih h

@[simp]
theorem notes_update_cooldown (db : Database) (u : Int) (op : Operation) (now : ℚ) :
    (Database.update_cooldown db u op now).notes = db.notes := by
  cases op <;> rfl

@[simp]
theorem referrals_ensure_user_exists (admin_id : Int) (db : Database) (u : Int) :
    ((Database.ensure_user_exists admin_id db u).2).referrals = db.referrals := by
  unfold Database.ensure_user_exists
  split <;> [rfl; skip]
  split <;> [rfl; skip]
  split <;> rfl

@[simp]
theorem referral_stats_ensure_user_exists (admin_id : Int) (db : Database) (u : Int) :
    ((Database.ensure_user_exists admin_id db u).2).referral_stats = db.referral_stats := by
  unfold Database.ensure_user_exists
  split <;> [rfl; skip]
  split <;> [rfl; skip]
  split <;> rfl

@[simp]
theorem referrals_update_referral_stats (db : Database) (u : Int) :
    ((Database.update_referral_stats db u).2).referrals = db.referrals := rfl

/-! Theorems settling the claims. -/

/-- C2: the statically configured owner identifier always resolves to the
owner tier: `is_main_admin` holds for it, `is_admin` holds for it in every
store state, and both survive a prior `add_user_role` storing an arbitrary
other role string for that id, as well as a `remove_user_role`. -/
theorem C2_owner_role_is_config_derived (admin_id : Int) (db : Database)
    (role : String) (granted_by : Int) :
    AdminPanel.is_main_admin admin_id admin_id = true ∧
    AdminPanel.is_admin admin_id db admin_id = true ∧
    AdminPanel.is_admin admin_id
      (Database.add_user_role db admin_id role granted_by).2 admin_id = true ∧
    AdminPanel.is_admin admin_id
      (Database.remove_user_role db admin_id).2 admin_id = true := by
  simp [AdminPanel.is_main_admin, AdminPanel.is_admin]

/-- C9: `grant_admin_role` succeeds iff the actor is the configured owner,
the target is not the owner, and the target's stored role is not already
`admin`; `revoke_admin_role` succeeds iff the actor is the owner, the
target is not the owner, and the target's stored role is `admin`.  Both
are total functions returning a `(flag, message)` pair, so every denial is
reported as `false` plus a reason message rather than an exception. -/
theorem C9_grant_revoke_success_iff (admin_id : Int) (db : Database)
    (target actor : Int) :
    ((AdminPanel.grant_admin_role admin_id db target actor).1.1 = true ↔
      (actor = admin_id ∧ ¬ target = admin_id ∧
        ¬ Database.get_user_role db target = "admin")) ∧
    ((AdminPanel.revoke_admin_role admin_id db target actor).1.1 = true ↔
      (actor = admin_id ∧ ¬ target = admin_id ∧
        Database.get_user_role db target = "admin")) := by
  unfold AdminPanel.grant_admin_role AdminPanel.revoke_admin_role
    AdminPanel.is_main_admin AdminPanel.is_admin
  by_cases hact : actor = admin_id <;>
    by_cases htgt : target = admin_id <;>
      by_cases hrole : Database.get_user_role db target = "admin" <;>
        simp [hact, htgt, hrole]

/-- C8: paginating a 23-item user list at 10 per page: page 1 yields 10
items with `has_next` and no `has_prev`; page 3 yields 3 items with
`has_prev` and no `has_next`; the page count is `ceil(23/10) = 3`; and
requests for page 0 and page 99 are clamped to pages 1 and 3 respectively
before slicing, returning exactly those pages' results. -/
theorem C8_pagination_23 {α : Type} (users : List α) (h : users.length = 23) :
    (AdminPanel.paginate users 1 10).users.length = 10 ∧
    (AdminPanel.paginate users 1 10).has_next = true ∧
    (AdminPanel.paginate users 1 10).has_prev = false ∧
    (AdminPanel.paginate users 3 10).users.length = 3 ∧
    (AdminPanel.paginate users 3 10).has_next = false ∧
    (AdminPanel.paginate users 3 10).has_prev = true ∧
    (AdminPanel.paginate users 1 10).total_pages = 3 ∧
    (AdminPanel.paginate users 0 10).page = 1 ∧
    AdminPanel.paginate users 0 10 = AdminPanel.paginate users 1 10 ∧
    (AdminPanel.paginate users 99 10).page = 3 ∧
    AdminPanel.paginate users 99 10 = AdminPanel.paginate users 3 10 := by
  simp [AdminPanel.paginate, AdminPanel.pySlice, AdminPanel.sliceIndex, h]

/-- Witness for C8 at the concrete list `List.range 23`. -/
theorem C8_pagination_23_witness :
    (List.range 23).length = 23 ∧
    ((AdminPanel.paginate (List.range 23) 1 10).users.length = 10 ∧
     (AdminPanel.paginate (List.range 23) 1 10).has_next = true ∧
     (AdminPanel.paginate (List.range 23) 1 10).has_prev = false ∧
     (AdminPanel.paginate (List.range 23) 3 10).users.length = 3 ∧
     (AdminPanel.paginate (List.range 23) 3 10).has_next = false ∧
     (AdminPanel.paginate (List.range 23) 3 10).has_prev = true ∧
     (AdminPanel.paginate (List.range 23) 1 10).total_pages = 3 ∧
     (AdminPanel.paginate (List.range 23) 0 10).page = 1 ∧
     AdminPanel.paginate (List.range 23) 0 10 = AdminPanel.paginate (List.range 23) 1 10 ∧
     (AdminPanel.paginate (List.range 23) 99 10).page = 3 ∧
     AdminPanel.paginate (List.range 23) 99 10 = AdminPanel.paginate (List.range 23) 3 10) :=
  ⟨by simp, C8_pagination_23 (List.range 23) (by simp)⟩

/-- C5: outside the caller's delete-cooldown window, `delete_note` on an id
that matches no note at all and `delete_note` on an id that matches only a
note owned by someone else both fail, leave the store untouched, and
return the one shared message (`"Заметка не найдена или не принадлежит
вам"`), so the two causes are indistinguishable to the caller. -/
theorem C5_delete_failure_indistinguishable (db_missing db_other : Database)
    (u nid : Int) (now1 now2 : ℚ)
    (hu : Database.validate_user_id u = true)
    (hn : Database.validate_note_id nid = true)
    (hc1 : (Database.check_cooldown db_missing u .delete 2 now1).1 = true)
    (hc2 : (Database.check_cooldown db_other u .delete 2 now2).1 = true)
    (hmiss : ∀ r ∈ db_missing.notes, ¬ r.id = nid)
    (hexist : ∃ r ∈ db_other.notes, r.id = nid)
    (hnotmine : ∀ r ∈ db_other.notes, r.id = nid → ¬ r.user_id = u) :
    Database.delete_note db_missing u nid now1 =
      ((false, Msg.note_not_found_or_not_yours), db_missing) ∧
    Database.delete_note db_other u nid now2 =
      ((false, Msg.note_not_found_or_not_yours), db_other) ∧
    (Database.delete_note db_missing u nid now1).1.2 =
      (Database.delete_note db_other u nid now2).1.2 := by
  have hall1 : ∀ r ∈ db_missing.notes, r.id = nid → ¬ r.user_id = u := by
    intro r hr hid
    exact absurd hid (hmiss r hr)
  refine ⟨?_, ?_, ?_⟩
  · simp [Database.delete_note, hu, hn, hc1]
    exact hall1
  · simp [Database.delete_note, hu, hn, hc2]
    exact hnotmine
  · simp only [Database.delete_note, hu, hn, hc1, hc2]
    simp only [Bool.not_eq_true, Bool.not_true, if_false, ite_false, ite_true,
      Bool.false_eq_true, not_false_eq_true, if_true, List.any_eq_true,
      decide_eq_true_eq, not_exists, not_and]
    rw [if_pos hall1, if_pos hnotmine]
    simp

/-- Witness for C5: user 1 deleting note 1 from an empty store, and from a
store whose only note 1 belongs to user 2. -/
theorem C5_delete_failure_indistinguishable_witness :
    (Database.validate_user_id 1 = true ∧
     Database.validate_note_id 1 = true ∧
     (Database.check_cooldown Database.empty 1 .delete 2 0).1 = true) ∧
    Database.delete_note Database.empty 1 1 0 =
      ((false, Msg.note_not_found_or_not_yours), Database.empty) :=
  ⟨by decide,
   (C5_delete_failure_indistinguishable Database.empty
      { Database.empty with
        notes := [{ id := 1, user_id := 2, note_text := ['a'], created_at := 0 }],
        next_note_id := 2 }
      1 1 0 0 (by decide) (by decide) (by decide) (by decide)
      (by simp [Database.empty])
      (by simp)
      (by simp)).1⟩

theorem pyStrip_space_replicate (n : Nat) :
    pyStrip (' ' :: List.replicate n 'a') = List.replicate n 'a' := by
  have ha : Char.isWhitespace 'a' = false := by decide
  have hs : Char.isWhitespace ' ' = true := by decide
  have hrep : (List.replicate n 'a').dropWhile Char.isWhitespace =
      List.replicate n 'a' := by
    cases n with
    | zero => rfl
    | succ m => simp [List.replicate_succ, List.dropWhile_cons, ha]
  simp [pyStrip, List.dropWhile_cons, hs, hrep, List.reverse_replicate]

/-- A text of 4001 characters (one leading space plus 4000 letters) whose
stripped form has exactly 4000 characters. -/
def overlongPaddedText : List Char := ' ' :: List.replicate 4000 'a'

theorem add_note_invalid_text (db : Database) (u : Int) (t : List Char) (now : ℚ)
    (hu : Database.validate_user_id u = true)
    (ht : Database.validate_note_text t = false) :
    Database.add_note db u t now = ((false, .invalid_note_text), db) := by
  simp [Database.add_note, hu, ht]

/-- C1 counterexample: the claim quantifies over texts whose *trimmed*
length is in [1,4000], but `_validate_note_text` measures the raw length,
so a 4001-character text whose stripped form has 4000 characters is
rejected by `add_note` even though the user is valid and the add-cooldown
is inactive, and the note list stays unchanged. -/
theorem C1_trimmed_length_not_sufficient :
    Database.validate_user_id 1 = true ∧
    1 ≤ (pyStrip overlongPaddedText).length ∧
    (pyStrip overlongPaddedText).length ≤ 4000 ∧
    (Database.check_cooldown Database.empty 1 .add 2 0).1 = true ∧
    (Database.add_note Database.empty 1 overlongPaddedText 0).1.1 = false ∧
    Database.get_user_notes (Database.add_note Database.empty 1 overlongPaddedText 0).2 1 =
      Database.get_user_notes Database.empty 1 := by
  have hstrip : pyStrip overlongPaddedText = List.replicate 4000 'a' := by
    simp only [overlongPaddedText]
    exact pyStrip_space_replicate 4000
  have hlen : overlongPaddedText.length = 4001 := by
    simp only [overlongPaddedText]
    rw [List.length_cons, List.length_replicate]
  have hvt : Database.validate_note_text overlongPaddedText = false := by
    unfold Database.validate_note_text
    rw [hlen, if_pos (by norm_num : (4001 : Nat) > 4000)]
  have hadd : Database.add_note Database.empty 1 overlongPaddedText 0 =
      ((false, .invalid_note_text), Database.empty) :=
    add_note_invalid_text Database.empty 1 overlongPaddedText 0 (by decide) hvt
  refine ⟨by decide, ?_, ?_, by decide, ?_, ?_⟩
  · rw [hstrip, List.length_replicate]
    norm_num
  · rw [hstrip, List.length_replicate]
  · rw [hadd]
  · rw [hadd]

/-- C1 (amended): for every valid user id and every text accepted by the
source's validation — raw length at most 4000 and non-blank after
stripping — if the add-cooldown is not active then `add_note` succeeds and
`get_user_notes` contains the stripped text exactly once more than
before; if the add-cooldown is active then `add_note` fails and
`get_user_notes` is unchanged. -/
theorem C1_add_then_list (db : Database) (u : Int) (t : List Char) (now : ℚ)
    (hu : Database.validate_user_id u = true)
    (ht : Database.validate_note_text t = true) :
    ((Database.check_cooldown db u .add 2 now).1 = true →
      (Database.add_note db u t now).1.1 = true ∧
      ((Database.get_user_notes (Database.add_note db u t now).2 u).filter
          (fun r => r.2 = pyStrip t)).length =
        ((Database.get_user_notes db u).filter
          (fun r => r.2 = pyStrip t)).length + 1) ∧
    ((Database.check_cooldown db u .add 2 now).1 = false →
      (Database.add_note db u t now).1.1 = false ∧
      Database.get_user_notes (Database.add_note db u t now).2 u =
        Database.get_user_notes db u) := by
  constructor
  · intro hc
    have hvu : (u : Int) > 0 := by
      simpa [Database.validate_user_id] using hu
    constructor
    · simp [Database.add_note, hu, ht, hc]
    · simp only [Database.add_note, hu, ht, hc, Bool.not_eq_true, ite_false,
        Bool.false_eq_true, if_false, not_false_eq_true, not_true_eq_false,
        ite_true]
      simp [Database.get_user_notes, hu, List.filter_append, List.map_append]
  · intro hc
    simp [Database.add_note, hu, ht, hc]

/-- Witness for C1 (amended): user 1 adds `"hi"` to the empty store at
time 0 (cooldown inactive) and to a store that is inside the cooldown
window at time 1. -/
theorem C1_add_then_list_witness :
    (Database.validate_user_id 1 = true ∧
     Database.validate_note_text ['h', 'i'] = true) ∧
    ((Database.check_cooldown Database.empty 1 .add 2 0).1 = true →
      (Database.add_note Database.empty 1 ['h', 'i'] 0).1.1 = true ∧
      ((Database.get_user_notes (Database.add_note Database.empty 1 ['h', 'i'] 0).2 1).filter
          (fun r => r.2 = pyStrip ['h', 'i'])).length =
        ((Database.get_user_notes Database.empty 1).filter
          (fun r => r.2 = pyStrip ['h', 'i'])).length + 1) :=
  ⟨by decide,
   (C1_add_then_list Database.empty 1 ['h', 'i'] 0 (by decide) (by decide)).1⟩

theorem add_note_cooldown_hit (db1 : Database) (u : Int) (t : List Char)
    (tm r : ℚ)
    (hu : Database.validate_user_id u = true)
    (ht : Database.validate_note_text t = true)
    (hck : Database.check_cooldown db1 u .add 2 tm = (false, r)) :
    Database.add_note db1 u t tm = ((false, .wait_add r), db1) := by
  simp [Database.add_note, hu, ht, hck]

theorem add_note_cooldown_ok (db1 : Database) (u : Int) (t : List Char)
    (tm : ℚ)
    (hu : Database.validate_user_id u = true)
    (ht : Database.validate_note_text t = true)
    (hck : (Database.check_cooldown db1 u .add 2 tm).1 = true) :
    (Database.add_note db1 u t tm).1.1 = true := by
  simp [Database.add_note, hu, ht, hck]

/-- C4: after a successful `add_note` at time `now`, a second `add_note`
for the same user at `now + d` with `0 < d < 2` is rejected by the
add-cooldown with remaining wait exactly `2 - d`, which lies strictly
between 0 and 2; once `d ≥ 2`, the cooldown check passes again and a
second valid add succeeds. -/
theorem C4_add_cooldown_window (db : Database) (u : Int)
    (t t2 : List Char) (now d : ℚ)
    (hu : Database.validate_user_id u = true)
    (ht : Database.validate_note_text t = true)
    (ht2 : Database.validate_note_text t2 = true)
    (hc : (Database.check_cooldown db u .add 2 now).1 = true) :
    ((0 < d → d < 2 →
      Database.add_note (Database.add_note db u t now).2 u t2 (now + d) =
        ((false, .wait_add (2 - d)), (Database.add_note db u t now).2) ∧
      (0 : ℚ) < 2 - d ∧ (2 - d : ℚ) < 2) ∧
     (2 ≤ d →
      Database.check_cooldown (Database.add_note db u t now).2 u .add 2 (now + d) =
        (true, 0) ∧
      (Database.add_note (Database.add_note db u t now).2 u t2 (now + d)).1.1 = true)) := by
  have hdb1 : lookupRow ((Database.add_note db u t now).2).user_cooldowns u =
      some { last_add_time := some now, last_delete_time := none,
             last_update_time := none } := by
    simp [Database.add_note, hu, ht, hc, Database.update_cooldown]
  have hdiff : now + d - now = d := by ring
  constructor
  · intro hd0 hd2
    have hck : Database.check_cooldown (Database.add_note db u t now).2 u .add 2 (now + d) =
        (false, 2 - d) := by
      rw [Database.check_cooldown, hdb1]
      simp only [CooldownRow.col, hdiff]
      rw [if_neg (by linarith)]
    exact ⟨add_note_cooldown_hit _ u t2 (now + d) (2 - d) hu ht2 hck,
           by linarith, by linarith⟩
  · intro hd2
    have hck : Database.check_cooldown (Database.add_note db u t now).2 u .add 2 (now + d) =
        (true, 0) := by
      rw [Database.check_cooldown, hdb1]
      simp only [CooldownRow.col, hdiff]
      rw [if_pos (by linarith)]
    exact ⟨hck, add_note_cooldown_ok _ u t2 (now + d) hu ht2 (by rw [hck])⟩

/-- Witness for C4: user 1 adds to the empty store at time 0; the second
call is examined at offset `d = 1`. -/
theorem C4_add_cooldown_window_witness :
    (Database.validate_user_id 1 = true ∧
     Database.validate_note_text ['h', 'i'] = true ∧
     Database.validate_note_text ['y', 'o'] = true ∧
     (Database.check_cooldown Database.empty 1 .add 2 0).1 = true) ∧
    (0 < (1 : ℚ) → (1 : ℚ) < 2 →
      Database.add_note (Database.add_note Database.empty 1 ['h', 'i'] 0).2 1 ['y', 'o'] (0 + 1) =
        ((false, .wait_add (2 - 1)), (Database.add_note Database.empty 1 ['h', 'i'] 0).2) ∧
      (0 : ℚ) < 2 - 1 ∧ (2 - 1 : ℚ) < 2) :=
  ⟨by refine ⟨by decide, by decide, by decide, by decide⟩,
   (C4_add_cooldown_window Database.empty 1 ['h', 'i'] ['y', 'o'] 0 1
      (by decide) (by decide) (by decide) (by decide)).1⟩

/-- C3: the claim (and spec) says a successful operation of one kind
leaves the other two kinds' cooldown timestamps unchanged, but
`_update_cooldown` issues `INSERT OR REPLACE` naming only one timestamp
column, which replaces the whole row and resets the other two columns to
NULL.  Concretely: user 1 adds a note at time 0 (storing
`last_add_time = 0`), then successfully deletes a note at time 3; the
stored row afterwards is `(NULL, 3, NULL)` — the add timestamp was erased
rather than left unchanged. -/
theorem C3_update_cooldown_clobbers_other_columns :
    lookupRow ((Database.add_note Database.empty 1 ['h', 'i'] 0).2).user_cooldowns 1 =
      some { last_add_time := some 0, last_delete_time := none,
             last_update_time := none } ∧
    (Database.delete_note (Database.add_note Database.empty 1 ['h', 'i'] 0).2 1 1 3).1.1 =
      true ∧
    lookupRow ((Database.delete_note (Database.add_note Database.empty 1 ['h', 'i'] 0).2
        1 1 3).2).user_cooldowns 1 =
      some { last_add_time := none, last_delete_time := some 3,
             last_update_time := none } := by
  decide

/-- C7: whenever `add_referral` succeeds, the referrer's stats row holds
`(n, n)` where `n` is the number of referral edges whose referrer is that
user in the resulting store (recomputed from the edge table); and
`get_referral_stats` returns `(0, 0)` whenever no stats row exists. -/
theorem C7_stats_recomputed_from_edges (admin_id : Int) (db : Database)
    (a b : Int) (un : Option String)
    (h : (Database.add_referral admin_id db a b un).1 = true) :
    Database.get_referral_stats (Database.add_referral admin_id db a b un).2 a =
      ((((Database.add_referral admin_id db a b un).2).referrals.filter
          (fun r => r.referrer_id = a)).length,
       (((Database.add_referral admin_id db a b un).2).referrals.filter
          (fun r => r.referrer_id = a)).length) ∧
    (∀ (db2 : Database) (u2 : Int),
      lookupRow db2.referral_stats u2 = none →
      Database.get_referral_stats db2 u2 = (0, 0)) := by
  constructor
  · by_cases hva : Database.validate_user_id a = true
    · by_cases hvb : Database.validate_user_id b = true
      · by_cases hab : a = b
        · simp [Database.add_referral, hab] at h
        · by_cases hdup : ∃ r ∈ db.referrals, r.referred_id = b
          · simp [Database.add_referral, hva, hvb, hab, hdup] at h
          · simp [Database.add_referral, Database.update_referral_stats,
              Database.get_referral_stats, hva, hvb, hab, hdup]
      · simp [Database.add_referral, hvb] at h
    · simp [Database.add_referral, hva] at h
  · intro db2 u2 h0
    simp only [Database.get_referral_stats, h0]
    split <;> rfl

/-- Witness for C7: user 5 refers user 6 in the empty store. -/
theorem C7_stats_recomputed_from_edges_witness :
    (Database.add_referral 42 Database.empty 5 6 none).1 = true ∧
    Database.get_referral_stats (Database.add_referral 42 Database.empty 5 6 none).2 5 =
      ((((Database.add_referral 42 Database.empty 5 6 none).2).referrals.filter
          (fun r => r.referrer_id = 5)).length,
       (((Database.add_referral 42 Database.empty 5 6 none).2).referrals.filter
          (fun r => r.referrer_id = 5)).length) :=
  ⟨by decide, (C7_stats_recomputed_from_edges 42 Database.empty 5 6 none (by decide)).1⟩

/-- C6: `add_referral` fails on a non-positive id, on `referrer = referred`
(in every state), and whenever the referred user already has an edge; in
particular a second `add_referral a b` fails, the store afterwards holds
exactly one edge for `b`, and the referrer's stats reflect exactly one
more edge than before the first call. -/
theorem C6_add_referral_first_link_wins (admin_id : Int) (db : Database)
    (a b : Int) (un un2 : Option String)
    (ha : Database.validate_user_id a = true)
    (hb : Database.validate_user_id b = true)
    (hab : ¬ a = b)
    (hfree : ∀ r ∈ db.referrals, ¬ r.referred_id = b) :
    (∀ (db2 : Database) (x y : Int) (u : Option String),
      (Database.validate_user_id x = false ∨ Database.validate_user_id y = false ∨ x = y) →
      (Database.add_referral admin_id db2 x y u).1 = false) ∧
    (∀ (db2 : Database) (x y : Int) (u : Option String),
      (∃ r ∈ db2.referrals, r.referred_id = y) →
      (Database.add_referral admin_id db2 x y u).1 = false) ∧
    (Database.add_referral admin_id db a b un).1 = true ∧
    (Database.add_referral admin_id
      (Database.add_referral admin_id db a b un).2 a b un2).1 = false ∧
    (((Database.add_referral admin_id
        (Database.add_referral admin_id db a b un).2 a b un2).2).referrals.filter
        (fun r => r.referred_id = b)).length = 1 ∧
    Database.get_referral_stats
        ((Database.add_referral admin_id
          (Database.add_referral admin_id db a b un).2 a b un2).2) a =
      ((db.referrals.filter (fun r => r.referrer_id = a)).length + 1,
       (db.referrals.filter (fun r => r.referrer_id = a)).length + 1) := by
  have hnodup : ¬ ∃ r ∈ db.referrals, r.referred_id = b := by
    push_neg
    exact hfree
  have hfilter : db.referrals.filter (fun r => decide (r.referred_id = b)) = [] := by
    rw [List.filter_eq_nil_iff]
    intro r hr
    simpa using hfree r hr
  refine ⟨?_, ?_, ?_, ?_, ?_, ?_⟩
  · intro db2 x y u hcase
    rcases hcase with hx | hy | hxy
    · simp [Database.add_referral, hx]
    · simp [Database.add_referral, hy]
    · by_cases hv : Database.validate_user_id x = false ∨ Database.validate_user_id y = false
      · simp [Database.add_referral, hv]
      · push_neg at hv
        simp only [Bool.not_eq_false] at hv
        simp [Database.add_referral, hv.1, hv.2, hxy]
  · intro db2 x y u hdup
    by_cases hvx : Database.validate_user_id x = false
    · simp [Database.add_referral, hvx]
    · by_cases hvy : Database.validate_user_id y = false
      · simp [Database.add_referral, hvy]
      · by_cases hxy : x = y
        · simp [Database.add_referral, hvx, hvy, hxy]
        · simp [Database.add_referral, hvx, hvy, hxy, hdup]
  · simp [Database.add_referral, ha, hb, hab, hnodup]
  · simp [Database.add_referral, Database.update_referral_stats,
      ha, hb, hab, hnodup]
  · simp [Database.add_referral, Database.update_referral_stats,
      ha, hb, hab, hnodup, List.filter_append, hfilter]
  · simp [Database.add_referral, Database.update_referral_stats,
      Database.get_referral_stats, ha, hb, hab, hnodup, List.filter_append]

/-- Witness for C6: user 5 refers user 6 twice in the empty store. -/
theorem C6_add_referral_first_link_wins_witness :
    (Database.validate_user_id 5 = true ∧
     Database.validate_user_id 6 = true ∧ ¬ (5 : Int) = 6) ∧
    ((Database.add_referral 42 Database.empty 5 6 none).1 = true ∧
     (Database.add_referral 42
       (Database.add_referral 42 Database.empty 5 6 none).2 5 6 none).1 = false ∧
     (((Database.add_referral 42
         (Database.add_referral 42 Database.empty 5 6 none).2 5 6 none).2).referrals.filter
         (fun r => r.referred_id = 6)).length = 1 ∧
     Database.get_referral_stats
         ((Database.add_referral 42
           (Database.add_referral 42 Database.empty 5 6 none).2 5 6 none).2) 5 =
       ((Database.empty.referrals.filter (fun r => r.referrer_id = 5)).length + 1,
        (Database.empty.referrals.filter (fun r => r.referrer_id = 5)).length + 1)) :=
  ⟨by refine ⟨by decide, by decide, by decide⟩,
   ((C6_add_referral_first_link_wins 42 Database.empty 5 6 none none
       (by decide) (by decide) (by decide) (by simp [Database.empty])).2.2)⟩

/-- C10: an `add_referral` call that fails only because the referred user
already has an edge still creates role rows for both participants first
(via `ensure_user_exists`, committed on its own connection), so the failed
call changes the `user_roles` table. -/
theorem C10_failed_referral_still_creates_roles (admin_id : Int) (db : Database)
    (a b : Int) (un : Option String)
    (ha : Database.validate_user_id a = true)
    (hb : Database.validate_user_id b = true)
    (hab : ¬ a = b)
    (hadm : ¬ a = admin_id)
    (hbadm : ¬ b = admin_id)
    (hdup : ∃ r ∈ db.referrals, r.referred_id = b)
    (hna : lookupRow db.user_roles a = none)
    (hnb : lookupRow db.user_roles b = none) :
    (Database.add_referral admin_id db a b un).1 = false ∧
    lookupRow ((Database.add_referral admin_id db a b un).2).user_roles a =
      some { role := "user", granted_by := none } ∧
    lookupRow ((Database.add_referral admin_id db a b un).2).user_roles b =
      some { role := "user", granted_by := none } := by
  have hroles : ((Database.add_referral admin_id db a b un).2).user_roles =
      (db.user_roles ++ [(a, ({ role := "user", granted_by := none } : RoleRow))]) ++
        [(b, ({ role := "user", granted_by := none } : RoleRow))] := by
    have hnbA : lookupRow
        (db.user_roles ++ [(a, ({ role := "user", granted_by := none } : RoleRow))]) b =
        none := by
      rw [lookupRow_append_of_none _ _ _ hnb]
      simp [lookupRow, hab]
    simp [Database.add_referral, Database.ensure_user_exists,
      ha, hb, hab, hadm, hbadm, hna, hnbA, hdup]
  refine ⟨?_, ?_, ?_⟩
  · simp [Database.add_referral, ha, hb, hab, hdup]
  · rw [hroles, List.append_assoc, lookupRow_append_of_none _ _ _ hna]
    simp [lookupRow]
  · rw [hroles, List.append_assoc, lookupRow_append_of_none _ _ _ hnb]
    simp [lookupRow, hab]

/-- Witness for C10: users 5 and 6 have no role rows, user 6 was already
referred by user 9; user 5's duplicate attempt fails but both role rows
appear. -/
theorem C10_failed_referral_still_creates_roles_witness :
    ((Database.add_referral 42
        { Database.empty with referrals :=
            [{ referrer_id := 9, referred_id := 6, referrer_username := none }] }
        5 6 none).1 = false ∧
     lookupRow ((Database.add_referral 42
        { Database.empty with referrals :=
            [{ referrer_id := 9, referred_id := 6, referrer_username := none }] }
        5 6 none).2).user_roles 5 =
       some { role := "user", granted_by := none } ∧
     lookupRow ((Database.add_referral 42
        { Database.empty with referrals :=
            [{ referrer_id := 9, referred_id := 6, referrer_username := none }] }
        5 6 none).2).user_roles 6 =
       some { role := "user", granted_by := none }) :=
  C10_failed_referral_still_creates_roles 42
    { Database.empty with referrals :=
        [{ referrer_id := 9, referred_id := 6, referrer_username := none }] }
    5 6 none (by decide) (by decide) (by decide) (by decide) (by decide)
    (by simp) (by simp [Database.empty, lookupRow]) (by simp [Database.empty, lookupRow])

end TgNotes
